import Mathlib

/-!
Verification of the Response Observation & Contract Enforcement Pipeline.

This file gives a shallow embedding of the two substantive components of the
repository and proves the spec's testable properties about them:

* `ApiHub` (src/lib/ApiHub.ts): the event classifier that writes latency
  samples into a per-session ledger (a JS `Map<string, number>`), the keyed
  latency lookup `getLatency`, and the SLA checker `assertLatencyWithin`.
* `ImageAssetDTO` (src/lib/ChatPage.ts, DTO section): the throwing
  constructor that validates a raw payload, modelled as a fallible factory
  `ImageAssetDTO.validate`, and the policy predicate
  `ImageAssetDTO.isFromAuthorizedProvider`.

Modelling conventions: JS numbers holding latency samples and durations are
milliseconds and modelled as `Nat` (the external transport interface delivers
a nullable, non-negative timing measurement, so the nullable measurement is
`Option Nat`); budgets passed by callers are arbitrary numbers and modelled
as `Int`. Throwing code is modelled with `Except`. JS truthiness for strings
(empty string and `undefined` are falsy) is made explicit.
-/

/-- Whether the first character list starts the second one. -/
def leadsWith : List Char → List Char → Bool
  | [], _ => true
  | _ :: _, [] => false
  | a :: as, b :: bs => a == b && leadsWith as bs

/-- Whether the first character list occurs contiguously inside the second. -/
def containsSeq (pat : List Char) : List Char → Bool
  | [] => leadsWith pat []
  | b :: bs => leadsWith pat (b :: bs) || containsSeq pat bs

/-- The substring test used by the source's `url.includes(pattern)`. -/
def strIncludes (s pat : String) : Bool :=
  containsSeq pat.toList s.toList

/-! ### The latency ledger

`ApiHub.requestTimings` is a JS `Map<string, number>`: insertion-ordered,
`set` overwrites an existing key in place or appends a new one, `get` returns
the value or `undefined`. -/

/-- The ledger state: the `requestTimings` map of one `ApiHub` instance. -/
abbrev Ledger := List (String × Nat)

/-- `Map.set`: overwrite the value of an existing key in place, otherwise
append the new entry at the end. -/
def ledgerSet : Ledger → String → Nat → Ledger
  | [], k, v => [(k, v)]
  | (k', v') :: rest, k, v =>
    if k' = k then (k, v) :: rest else (k', v') :: ledgerSet rest k v

/-- `Map.get`: the value stored under a key, or `none` (JS `undefined`). -/
def ledgerGet : Ledger → String → Option Nat
  | [], _ => none
  | (k', v') :: rest, k => if k' = k then some v' else ledgerGet rest k

/-! ### The event classifier (ApiHub.setupInterception) -/

/-- One incoming network response event, restricted to the fields the
classifier callback consumes: the target URL (`response.url()`) and the
nullable timing measurement (`response.timing()?.responseEnd`), a
non-negative duration in milliseconds when present. -/
structure ResponseEvent where
  url : String
  timingResponseEnd : Option Nat
  deriving DecidableEq

/-- The truthiness of `response.request().postDataBuffer` in the chat branch
of the source. The source references the method without invoking it, and a
function reference is always truthy in JS, so this condition is the constant
`true`. -/
def postDataBufferTruthy : Bool := true

/-- The body of the `page.on('response', ...)` callback installed by
`ApiHub.setupInterception`, acting on the `requestTimings` ledger. Each of
the two interception rules is an independent `if` on the event's URL. -/
def handleResponse (timings : Ledger) (response : ResponseEvent) : Ledger :=
  let url := response.url
  let afterChat :=
    if strIncludes url "/api/chat/messages" then
      let timing : Option Nat :=
        if postDataBufferTruthy then response.timingResponseEnd else some 0
      ledgerSet timings "chat_latency" (timing.getD 0)
    else timings
  if strIncludes url "/api/images/generate" then
    ledgerSet afterChat "image_generation_latency"
      (response.timingResponseEnd.getD 0)
  else afterChat

/-- A whole observation session: the ledger after the classifier has handled
a sequence of response events, starting from a fresh (empty) map. -/
def runSession (events : List ResponseEvent) : Ledger :=
  events.foldl handleResponse []

/-! ### Latency lookup and the SLA checker -/

/-- `ApiHub.getLatency`: `this.requestTimings.get(endpoint) || 0`. -/
def getLatency (timings : Ledger) (endpoint : String) : Nat :=
  (ledgerGet timings endpoint).getD 0

/-- The SLA violation error raised by `assertLatencyWithin`. -/
structure SLAViolation where
  message : String
  deriving DecidableEq

/-- The message built by the source's template literal. -/
def slaMessage (endpoint : String) (actual : Nat) (maxMs : Int) : String :=
  "[LATENCY SLA VIOLATION] Endpoint: " ++ endpoint ++ " took " ++
    toString actual ++ "ms (max: " ++ toString maxMs ++ "ms)"

/-- `ApiHub.assertLatencyWithin`: read the current sample and throw when it
strictly exceeds the budget. -/
def assertLatencyWithin (timings : Ledger) (endpoint : String) (maxMs : Int) :
    Except SLAViolation Unit :=
  let actual := getLatency timings endpoint
  if (actual : Int) > maxMs then
    .error ⟨slaMessage endpoint actual maxMs⟩
  else
    .ok ()

/-! ### The image asset DTO (src/lib/ChatPage.ts, DTO section) -/

/-- The value found in the raw payload's `metadata` slot. The constructor
takes `data: any`, so this slot may hold the well-formed
width/height/quality triple of the `ImageMetadata` interface or any other
value; it is stored without inspection either way. -/
inductive MetaVal where
  /-- A well-formed `ImageMetadata` triple. -/
  | triple (width height : Nat) (quality : String)
  /-- Any other (truthy) value that is not a well-formed triple. -/
  | otherValue (shape : String)
  deriving DecidableEq

/-- The baseline metadata the constructor defaults to:
`{ width: 1024, height: 1024, quality: 'premium' }`. -/
def defaultMetadata : MetaVal := .triple 1024 1024 "premium"

/-- The raw payload handed to the `ImageAssetDTO` constructor (`data: any`):
every field may be absent. -/
structure RawPayload where
  id : Option String
  url : Option String
  provider : Option String
  generationTime : Option Nat
  metadata : Option MetaVal
  deriving DecidableEq

/-- JS truthiness of an optional string field: `undefined` and the empty
string are falsy, every other string is truthy. -/
def strTruthy : Option String → Bool
  | none => false
  | some s => !(s == "")

/-- The structured rejection thrown by the constructor, with the message of
the corresponding `Error`. -/
inductive SchemaViolation where
  | missingId
  | missingUrl
  | missingProvider
  | invalidProvider (provider : String)
  deriving DecidableEq

/-- The `Error` message carried by each violation in the source. -/
def SchemaViolation.message : SchemaViolation → String
  | .missingId => "ImageAsset missing required field: id"
  | .missingUrl => "ImageAsset missing required field: url"
  | .missingProvider => "ImageAsset missing required field: provider"
  | .invalidProvider p => "ImageAsset has invalid provider: " ++ p

/-- The validated entity: the fields of a fully constructed `ImageAssetDTO`. -/
structure ImageAssetDTO where
  id : String
  url : String
  provider : String
  generationTime : Nat
  metadata : MetaVal
  deriving DecidableEq

/-- The `ImageAssetDTO` constructor as a fallible factory: the four guard
checks in source order, then the field assignments with their `|| 0` and
`|| baseline` defaults. -/
def ImageAssetDTO.validate (data : RawPayload) : Except SchemaViolation ImageAssetDTO :=
  if !strTruthy data.id then .error .missingId
  else if !strTruthy data.url then .error .missingUrl
  else if !strTruthy data.provider then .error .missingProvider
  else if !(["openai", "stability-ai", "midjourney"].contains (data.provider.getD "")) then
    .error (.invalidProvider (data.provider.getD ""))
  else
    .ok { id := data.id.getD ""
          url := data.url.getD ""
          provider := data.provider.getD ""
          generationTime := data.generationTime.getD 0
          metadata := data.metadata.getD defaultMetadata }

/-- `ImageAssetDTO.isFromAuthorizedProvider`: membership of the entity's
provider in the fixed authorized list. -/
def ImageAssetDTO.isFromAuthorizedProvider (dto : ImageAssetDTO) : Bool :=
  ["openai", "stability-ai"].contains dto.provider

/-- The raw form of a validated entity's own fields, used for the round-trip
property: every field present, carrying the entity's value. -/
def ImageAssetDTO.toRawPayload (dto : ImageAssetDTO) : RawPayload :=
  { id := some dto.id
    url := some dto.url
    provider := some dto.provider
    generationTime := some dto.generationTime
    metadata := some dto.metadata }

/-! ### Helper lemmas -/

/-- Reading a key after a `Map.set`: the new value at the written key, the
old ledger's answer everywhere else. -/
theorem ledgerGet_ledgerSet (m : Ledger) (k : String) (v : Nat) (q : String) :
    ledgerGet (ledgerSet m k v) q = if k = q then some v else ledgerGet m q := by
  induction m with
  | nil => simp [ledgerSet, ledgerGet]
  | cons hd tl ih =>
    obtain ⟨k', v'⟩ := hd
    simp only [ledgerSet]
    by_cases h1 : k' = k
    · subst h1
      simp only [if_pos rfl, ledgerGet]
      by_cases h2 : k' = q <;> simp [h2]
    · simp only [if_neg h1, ledgerGet]
      by_cases h2 : k' = q
      · subst h2
        have hkq : ¬ k = k' := fun h => h1 h.symm
        simp [hkq]
      · simp [h2, ih]

/-- A truthy optional string is a present, non-empty string. -/
theorem strTruthy_eq_true (o : Option String) :
    strTruthy o = true ↔ ∃ s, o = some s ∧ s ≠ "" := by
  cases o <;> simp [strTruthy]

/-- Everything `ImageAssetDTO.validate` guarantees on success: all four
guards passed and the entity is exactly the defaulted field record. -/
theorem validate_ok_elim (p : RawPayload) (d : ImageAssetDTO)
    (h : ImageAssetDTO.validate p = .ok d) :
    strTruthy p.id = true ∧ strTruthy p.url = true ∧ strTruthy p.provider = true ∧
    ["openai", "stability-ai", "midjourney"].contains (p.provider.getD "") = true ∧
    d = { id := p.id.getD "", url := p.url.getD "", provider := p.provider.getD "",
          generationTime := p.generationTime.getD 0,
          metadata := p.metadata.getD defaultMetadata } := by
  unfold ImageAssetDTO.validate at h
  split at h
  next h1 => exact Except.noConfusion h
  next h1 =>
    split at h
    next h2 => exact Except.noConfusion h
    next h2 =>
      split at h
      next h3 => exact Except.noConfusion h
      next h3 =>
        split at h
        next h4 => exact Except.noConfusion h
        next h4 =>
          refine ⟨?_, ?_, ?_, ?_, (Except.ok.inj h).symm⟩
          · simpa using h1
          · simpa using h2
          · simpa using h3
          · rcases Bool.eq_false_or_eq_true
              (["openai", "stability-ai", "midjourney"].contains (p.provider.getD "")) with hb | hb
            · exact hb
            · exact absurd (by rw [hb]; rfl) h4

/-- A provider accepted by the enumeration guard is one of the three tags. -/
theorem contains_enum_iff (q : String) :
    (["openai", "stability-ai", "midjourney"].contains q = true) ↔
      q = "openai" ∨ q = "stability-ai" ∨ q = "midjourney" := by
  simp [List.contains]

/-! ### Claim theorems -/

/-- Claim C1, counterexample: the claim says that for an event matching more
than one observation rule only the first-registered rule's channel is
written. But the two rules in `setupInterception` are independent `if`
statements, not an else-if chain: a response whose URL contains both
registered substrings matches both rules and writes BOTH channels. -/
theorem C1_counterexample :
    strIncludes "/api/chat/messages/api/images/generate" "/api/chat/messages" = true ∧
    strIncludes "/api/chat/messages/api/images/generate" "/api/images/generate" = true ∧
    ledgerGet (handleResponse [] ⟨"/api/chat/messages/api/images/generate", some 5⟩)
      "chat_latency" = some 5 ∧
    ledgerGet (handleResponse [] ⟨"/api/chat/messages/api/images/generate", some 5⟩)
      "image_generation_latency" = some 5 :=
  ⟨by decide, by decide, by decide, by decide⟩

/-- Claim C1 (amended): each of the two observation rules acts
independently on every incoming response event. A rule whose URL substring
matches writes the event's timing value under its own channel, and a rule
whose substring does not match leaves its channel untouched; when both
rules match, both channels are written, not only the first-registered
one. -/
theorem C1_rules_act_independently (m : Ledger) (ev : ResponseEvent) :
    (strIncludes ev.url "/api/chat/messages" = true →
      ledgerGet (handleResponse m ev) "chat_latency" =
        some (ev.timingResponseEnd.getD 0)) ∧
    (strIncludes ev.url "/api/images/generate" = true →
      ledgerGet (handleResponse m ev) "image_generation_latency" =
        some (ev.timingResponseEnd.getD 0)) ∧
    (strIncludes ev.url "/api/chat/messages" = false →
      ledgerGet (handleResponse m ev) "chat_latency" = ledgerGet m "chat_latency") ∧
    (strIncludes ev.url "/api/images/generate" = false →
      ledgerGet (handleResponse m ev) "image_generation_latency" =
        ledgerGet m "image_generation_latency") := by
  have hne1 : ¬ ("image_generation_latency" = "chat_latency") := by decide
  cases hc : strIncludes ev.url "/api/chat/messages" <;>
    cases hi : strIncludes ev.url "/api/images/generate" <;>
      simp [handleResponse, hc, hi, postDataBufferTruthy, ledgerGet_ledgerSet, hne1]

/-- Closed witness for the amended C1 theorem at a both-matching event. -/
theorem C1_rules_act_independently_witness :
    ledgerGet (handleResponse [] ⟨"/api/chat/messages/api/images/generate", some 7⟩)
      "chat_latency" = some 7 :=
  (C1_rules_act_independently [] ⟨"/api/chat/messages/api/images/generate", some 7⟩).1
    (by decide)

/-- Claim C4: `assertLatencyWithin` raises exactly when the current ledger
value strictly exceeds the budget (equality passes), and the raised message
contains the channel name, the observed value and the budget. The embedding
is a pure reader of the ledger, so the check has no effect on it. -/
theorem C4_assertLatencyWithin_spec (m : Ledger) (ch : String) (b : Int) :
    ((∃ e, assertLatencyWithin m ch b = .error e) ↔ (getLatency m ch : Int) > b) ∧
    (∀ e, assertLatencyWithin m ch b = .error e →
      ∃ pre mid1 mid2 post,
        e.message =
          pre ++ ch ++ mid1 ++ toString (getLatency m ch) ++ mid2 ++
            toString b ++ post) := by
  by_cases hgt : (getLatency m ch : Int) > b
  · constructor
    · exact ⟨fun _ => hgt,
        fun _ => ⟨⟨slaMessage ch (getLatency m ch) b⟩, by simp [assertLatencyWithin, hgt]⟩⟩
    · intro e he
      have heq : assertLatencyWithin m ch b =
          .error ⟨slaMessage ch (getLatency m ch) b⟩ := by
        simp [assertLatencyWithin, hgt]
      rw [heq] at he
      have : (⟨slaMessage ch (getLatency m ch) b⟩ : SLAViolation) = e := Except.error.inj he
      subst this
      exact ⟨"[LATENCY SLA VIOLATION] Endpoint: ", " took ", "ms (max: ", "ms)", rfl⟩
  · have hok : assertLatencyWithin m ch b = .ok () := by
      simp [assertLatencyWithin, hgt]
    constructor
    · constructor
      · rintro ⟨e, he⟩
        rw [hok] at he
        exact Except.noConfusion he
      · intro hcontra
        exact absurd hcontra hgt
    · intro e he
      rw [hok] at he
      exact Except.noConfusion he

/-- Closed witness for C4: with an observed latency of 7, a budget of 6
raises while a budget of 7 (equality) passes. -/
theorem C4_assertLatencyWithin_spec_witness :
    (∃ e, assertLatencyWithin [("chat_latency", 7)] "chat_latency" 6 = .error e) ∧
    assertLatencyWithin [("chat_latency", 7)] "chat_latency" 7 = .ok () :=
  ⟨(C4_assertLatencyWithin_spec [("chat_latency", 7)] "chat_latency" 6).1.mpr (by decide),
    by rfl⟩

/-- Claim C5: a channel never written by an observed response reads as 0,
and the SLA check passes for it at every non-negative budget. -/
theorem C5_absent_channel_neutral (m : Ledger) (ch : String) (b : Int)
    (habs : ledgerGet m ch = none) (hb : 0 ≤ b) :
    getLatency m ch = 0 ∧ assertLatencyWithin m ch b = .ok () := by
  have h0 : getLatency m ch = 0 := by simp [getLatency, habs]
  have hc : ¬ ((getLatency m ch : Int) > b) := by
    rw [h0]
    exact not_lt.mpr (by exact_mod_cast hb)
  exact ⟨h0, by simp [assertLatencyWithin, hc]⟩

/-- Closed witness for C5 on the fresh (empty) ledger. -/
theorem C5_absent_channel_neutral_witness :
    getLatency [] "chat_latency" = 0 ∧
    assertLatencyWithin [] "chat_latency" 0 = .ok () :=
  C5_absent_channel_neutral [] "chat_latency" 0 rfl (by decide)

/-- Claim C9: every latency sample the classifier stores is non-negative
(both after one event and over a whole session from a fresh ledger); a
matched event writes the transport's measurement when one is available, and
exactly 0 — the channel becomes present with value 0 — when none is. -/
theorem C9_samples_nonneg_observed_unmeasured (m : Ledger) (ev : ResponseEvent) :
    (∀ ch v, ledgerGet (handleResponse m ev) ch = some v → (0 : Int) ≤ (v : Int)) ∧
    (∀ evs ch v, ledgerGet (runSession evs) ch = some v → (0 : Int) ≤ (v : Int)) ∧
    (strIncludes ev.url "/api/chat/messages" = true →
      ledgerGet (handleResponse m ev) "chat_latency" =
        some (ev.timingResponseEnd.getD 0)) ∧
    (strIncludes ev.url "/api/images/generate" = true →
      ledgerGet (handleResponse m ev) "image_generation_latency" =
        some (ev.timingResponseEnd.getD 0)) ∧
    (ev.timingResponseEnd = none → strIncludes ev.url "/api/chat/messages" = true →
      ledgerGet (handleResponse m ev) "chat_latency" = some 0) ∧
    (ev.timingResponseEnd = none → strIncludes ev.url "/api/images/generate" = true →
      ledgerGet (handleResponse m ev) "image_generation_latency" = some 0) := by
  have hne1 : ¬ ("image_generation_latency" = "chat_latency") := by decide
  have hchat : strIncludes ev.url "/api/chat/messages" = true →
      ledgerGet (handleResponse m ev) "chat_latency" =
        some (ev.timingResponseEnd.getD 0) := by
    intro hc
    cases hi : strIncludes ev.url "/api/images/generate" <;>
      simp [handleResponse, hc, hi, postDataBufferTruthy, ledgerGet_ledgerSet, hne1]
  have himg : strIncludes ev.url "/api/images/generate" = true →
      ledgerGet (handleResponse m ev) "image_generation_latency" =
        some (ev.timingResponseEnd.getD 0) := by
    intro hi
    cases hc : strIncludes ev.url "/api/chat/messages" <;>
      simp [handleResponse, hc, hi, postDataBufferTruthy, ledgerGet_ledgerSet]
  refine ⟨fun ch v _ => Int.natCast_nonneg v, fun evs ch v _ => Int.natCast_nonneg v,
    hchat, himg, ?_, ?_⟩
  · intro ht hc
    rw [hchat hc, ht]
    rfl
  · intro ht hi
    rw [himg hi, ht]
    rfl

/-- Closed witness for C9: an event matching the chat rule with no timing
measurement available makes the channel present with value 0. -/
theorem C9_samples_nonneg_observed_unmeasured_witness :
    ledgerGet (handleResponse [] ⟨"/api/chat/messages", none⟩) "chat_latency" = some 0 :=
  (C9_samples_nonneg_observed_unmeasured [] ⟨"/api/chat/messages", none⟩).2.2.2.2.1
    rfl (by decide)

/-- Claim C2: validation either succeeds or fails with the violation of
exactly the first failing check, in the fixed order identifier, location
reference, provider presence, provider enumeration; a later check's failure
is never reported when an earlier one fails. -/
theorem C2_first_failing_check (p : RawPayload) (e : SchemaViolation) :
    ImageAssetDTO.validate p = .error e ↔
      ((strTruthy p.id = false ∧ e = .missingId) ∨
       (strTruthy p.id = true ∧ strTruthy p.url = false ∧ e = .missingUrl) ∨
       (strTruthy p.id = true ∧ strTruthy p.url = true ∧
         strTruthy p.provider = false ∧ e = .missingProvider) ∨
       (strTruthy p.id = true ∧ strTruthy p.url = true ∧
         strTruthy p.provider = true ∧
         ¬ (p.provider.getD "" = "openai" ∨ p.provider.getD "" = "stability-ai" ∨
            p.provider.getD "" = "midjourney") ∧
         e = .invalidProvider (p.provider.getD ""))) := by
  cases h1 : strTruthy p.id with
  | false =>
    simp [ImageAssetDTO.validate, h1]
    try exact eq_comm
  | true =>
    cases h2 : strTruthy p.url with
    | false =>
      simp [ImageAssetDTO.validate, h1, h2]
      try exact eq_comm
    | true =>
      cases h3 : strTruthy p.provider with
      | false =>
        simp [ImageAssetDTO.validate, h1, h2, h3]
        try exact eq_comm
      | true =>
        by_cases h4 : (p.provider.getD "" = "openai" ∨ p.provider.getD "" = "stability-ai" ∨
            p.provider.getD "" = "midjourney")
        · rcases h4 with h5 | h5 | h5 <;>
            · simp [ImageAssetDTO.validate, h1, h2, h3, h5]
              try exact eq_comm
        · simp [ImageAssetDTO.validate, h1, h2, h3, h4]
          try exact eq_comm

/-- Claim C3: validation is all-or-nothing; every entity it produces has a
present (non-empty) identifier, a present location reference, and a
provider tag inside the enumerated set. -/
theorem C3_entity_invariant (p : RawPayload) (d : ImageAssetDTO)
    (h : ImageAssetDTO.validate p = .ok d) :
    d.id ≠ "" ∧ d.url ≠ "" ∧
    (d.provider = "openai" ∨ d.provider = "stability-ai" ∨ d.provider = "midjourney") := by
  obtain ⟨h1, h2, _h3, h4, hd⟩ := validate_ok_elim p d h
  subst hd
  obtain ⟨s, hs, hne⟩ := (strTruthy_eq_true _).mp h1
  obtain ⟨t, ht, hnet⟩ := (strTruthy_eq_true _).mp h2
  refine ⟨?_, ?_, (contains_enum_iff _).mp h4⟩
  · simp [hs, hne]
  · simp [ht, hnet]

/-- Closed witness for C3 at a concrete valid payload. -/
theorem C3_entity_invariant_witness :
    (ImageAssetDTO.mk "x" "y" "openai" 0 defaultMetadata).id ≠ "" ∧
    (ImageAssetDTO.mk "x" "y" "openai" 0 defaultMetadata).url ≠ "" ∧
    ((ImageAssetDTO.mk "x" "y" "openai" 0 defaultMetadata).provider = "openai" ∨
     (ImageAssetDTO.mk "x" "y" "openai" 0 defaultMetadata).provider = "stability-ai" ∨
     (ImageAssetDTO.mk "x" "y" "openai" 0 defaultMetadata).provider = "midjourney") :=
  C3_entity_invariant ⟨some "x", some "y", some "openai", none, none⟩ _ rfl

/-- Claim C6: with valid required fields and absent optional fields,
validation succeeds with generation duration 0 and the fixed baseline
metadata (width 1024, height 1024, quality premium). -/
theorem C6_optional_field_defaults (p : RawPayload)
    (hid : strTruthy p.id = true) (hurl : strTruthy p.url = true)
    (hprov : strTruthy p.provider = true)
    (hmem : ["openai", "stability-ai", "midjourney"].contains (p.provider.getD "") = true)
    (hgen : p.generationTime = none) (hmeta : p.metadata = none) :
    ∃ d, ImageAssetDTO.validate p = .ok d ∧
      d.generationTime = 0 ∧ d.metadata = defaultMetadata := by
  refine ⟨{ id := p.id.getD "", url := p.url.getD "", provider := p.provider.getD "",
            generationTime := 0, metadata := defaultMetadata }, ?_, rfl, rfl⟩
  rcases (contains_enum_iff _).mp hmem with h5 | h5 | h5 <;>
    simp [ImageAssetDTO.validate, hid, hurl, hprov, h5, hgen, hmeta]

/-- Closed witness for C6 at the spec's own example payload. -/
theorem C6_optional_field_defaults_witness :
    ∃ d, ImageAssetDTO.validate ⟨some "x", some "y", some "openai", none, none⟩ = .ok d ∧
      d.generationTime = 0 ∧ d.metadata = defaultMetadata :=
  C6_optional_field_defaults ⟨some "x", some "y", some "openai", none, none⟩
    rfl rfl rfl (by decide) rfl rfl

/-- Claim C7: the policy predicate is a total boolean function of the
provider tag: true exactly for the authorized pair, hence false for a
schema-valid entity tagged midjourney. -/
theorem C7_isFromAuthorizedProvider_spec (d : ImageAssetDTO) :
    (d.isFromAuthorizedProvider = true ↔
      (d.provider = "openai" ∨ d.provider = "stability-ai")) ∧
    (d.provider = "midjourney" → d.isFromAuthorizedProvider = false) := by
  constructor
  · simp [ImageAssetDTO.isFromAuthorizedProvider, List.contains]
  · intro h
    simp only [ImageAssetDTO.isFromAuthorizedProvider, h]
    decide

/-- Closed witness for C7 at a midjourney-tagged entity. -/
theorem C7_isFromAuthorizedProvider_spec_witness :
    (ImageAssetDTO.mk "img_1" "u" "midjourney" 0 defaultMetadata).isFromAuthorizedProvider
      = false :=
  (C7_isFromAuthorizedProvider_spec (ImageAssetDTO.mk "img_1" "u" "midjourney" 0
    defaultMetadata)).2 rfl

/-- Claim C8: round-trip — re-validating the raw form of a validated
entity's own fields succeeds and reproduces the entity in every field. -/
theorem C8_round_trip (p : RawPayload) (d : ImageAssetDTO)
    (h : ImageAssetDTO.validate p = .ok d) :
    ImageAssetDTO.validate d.toRawPayload = .ok d := by
  obtain ⟨h1, h2, _h3, h4, hd⟩ := validate_ok_elim p d h
  obtain ⟨s, hs, hne⟩ := (strTruthy_eq_true _).mp h1
  obtain ⟨t, ht, hnet⟩ := (strTruthy_eq_true _).mp h2
  subst hd
  rcases (contains_enum_iff _).mp h4 with h5 | h5 | h5 <;>
    simp [ImageAssetDTO.validate, ImageAssetDTO.toRawPayload, strTruthy,
      hs, ht, hne, hnet, h5]

/-- Closed witness for C8 at a concrete valid payload. -/
theorem C8_round_trip_witness :
    ImageAssetDTO.validate
      (ImageAssetDTO.toRawPayload (ImageAssetDTO.mk "x" "y" "openai" 3 defaultMetadata)) =
      .ok (ImageAssetDTO.mk "x" "y" "openai" 3 defaultMetadata) :=
  C8_round_trip ⟨some "x", some "y", some "openai", some 3, none⟩ _ rfl

/-- Claim C10: a present metadata value — well-formed triple or not — is
stored on the entity exactly as supplied; the constructor never inspects
it. -/
theorem C10_metadata_passthrough (p : RawPayload) (mv : MetaVal)
    (hid : strTruthy p.id = true) (hurl : strTruthy p.url = true)
    (hprov : strTruthy p.provider = true)
    (hmem : ["openai", "stability-ai", "midjourney"].contains (p.provider.getD "") = true)
    (hmeta : p.metadata = some mv) :
    ∃ d, ImageAssetDTO.validate p = .ok d ∧ d.metadata = mv := by
  refine ⟨{ id := p.id.getD "", url := p.url.getD "", provider := p.provider.getD "",
            generationTime := p.generationTime.getD 0, metadata := mv }, ?_, rfl⟩
  rcases (contains_enum_iff _).mp hmem with h5 | h5 | h5 <;>
    simp [ImageAssetDTO.validate, hid, hurl, hprov, h5, hmeta]

/-- Closed witness for C10 with a metadata value that is not a well-formed
width/height/quality triple. -/
theorem C10_metadata_passthrough_witness :
    ∃ d, ImageAssetDTO.validate
        ⟨some "x", some "y", some "openai", none, some (.otherValue "not-a-triple")⟩ =
          .ok d ∧
      d.metadata = .otherValue "not-a-triple" :=
  C10_metadata_passthrough
    ⟨some "x", some "y", some "openai", none, some (.otherValue "not-a-triple")⟩
    (.otherValue "not-a-triple") rfl rfl rfl (by decide) rfl
